import Mathlib

/-!
Verification of the Safety Monitoring System (CCTV repository).

The repository's frontend (Dashboard.jsx, CameraCard.jsx, AudioCard.jsx,
LogTable.jsx) is embedded shallowly below: JavaScript values that may be
absent become `Option`, JS numbers become `ℚ`, and the JS `||` default
operator is modelled with its truthiness semantics (`0`, `false` and a
missing field are falsy).  The backend components (EventQueue, EventStore)
are not part of the source tree and are modelled from the specification.
-/

namespace CCTV

/-- JS `x || d` for an optional number: a missing field and the number `0`
are falsy, so both yield the default `d`. -/
def jsOrNum (x : Option ℚ) (d : ℚ) : ℚ :=
  match x with
  | none => d
  | some v => if v = 0 then d else v

/-- JS `x || d` for an optional boolean: `undefined` and `false` are falsy. -/
def jsOrBool (x : Option Bool) (d : Bool) : Bool :=
  match x with
  | none => d
  | some b => if b then b else d

/-- JS `x || d` for an optional array: an array (even empty) is truthy,
only a missing field yields the default. -/
def jsOrList (x : Option (List String)) (d : List String) : List String :=
  x.getD d

/-- A WebSocket message as handled by `Dashboard.handleMessage`: a flat JSON
object whose fields may each be absent. -/
structure Message where
  source : Option String := none
  type : Option String := none
  timestamp : Option String := none
  people_count : Option ℚ := none
  accident_detected : Option Bool := none
  accident_type : Option String := none
  fps : Option ℚ := none
  ppe_compliant : Option ℚ := none
  ppe_non_compliant : Option ℚ := none
  total_detected : Option ℚ := none
  missing_items : Option (List String) := none
  noise_level : Option ℚ := none
  threshold : Option ℚ := none
  alert : Option Bool := none
  deriving DecidableEq, Repr

/-- The `cam0` entry of the Dashboard `data` state. -/
structure Cam0State where
  people_count : ℚ
  accident_detected : Bool
  accident_type : Option String
  fps : ℚ
  deriving DecidableEq, Repr

/-- The `cam10` entry of the Dashboard `data` state. -/
structure Cam10State where
  ppe_compliant : ℚ
  ppe_non_compliant : ℚ
  total_detected : ℚ
  missing_items : Option (List String)
  fps : ℚ
  deriving DecidableEq, Repr

/-- The `audio` entry of the Dashboard `data` state. -/
structure AudioState where
  noise_level : ℚ
  threshold : Option ℚ
  alert : Bool
  deriving DecidableEq, Repr

/-- One entry of the Dashboard `logs` state (`id` is `Date.now()`). -/
structure LogEntry where
  id : Nat
  timestamp : Option String
  source : Option String
  type : Option String
  data : Message
  deriving DecidableEq, Repr

/-- The Dashboard component state: the three per-source cards and the logs. -/
structure DashState where
  cam0 : Cam0State
  cam10 : Cam10State
  audio : AudioState
  logs : List LogEntry
  deriving DecidableEq, Repr

/-- The Dashboard's initial `data`/`logs` state (`useState` initialisers). -/
def initState : DashState :=
  { cam0 := { people_count := 0, accident_detected := false,
              accident_type := none, fps := 0 }
    cam10 := { ppe_compliant := 0, ppe_non_compliant := 0,
               total_detected := 0, missing_items := none, fps := 0 }
    audio := { noise_level := 0, threshold := none, alert := false }
    logs := [] }

/-- The control-message guard at the top of `handleMessage`. -/
def isControlMessage (m : Message) : Bool :=
  m.type = some "connection" || m.type = some "pong" || m.type = some "keepalive"

/-- The log entry built inside `setLogs` (`id` is `Date.now()`, passed in as
`now`). -/
def mkLogEntry (now : Nat) (m : Message) : LogEntry :=
  { id := now, timestamp := m.timestamp, source := m.source,
    type := m.type, data := m }

/-- `Dashboard.handleMessage`: ignore control messages; update the card
matching `message.source`; prepend a log entry and keep only the last 50. -/
def handleMessage (now : Nat) (m : Message) (s : DashState) : DashState :=
  if isControlMessage m then s
  else
    let s1 : DashState :=
      if m.source = some "cam0" then
        { s with cam0 :=
          { people_count := jsOrNum m.people_count 0
            accident_detected := jsOrBool m.accident_detected false
            accident_type := m.accident_type
            fps := jsOrNum m.fps 0 } }
      else if m.source = some "cam10" then
        { s with cam10 :=
          { ppe_compliant := jsOrNum m.ppe_compliant 0
            ppe_non_compliant := jsOrNum m.ppe_non_compliant 0
            total_detected := jsOrNum m.total_detected 0
            missing_items := some (jsOrList m.missing_items [])
            fps := jsOrNum m.fps 0 } }
      else if m.source = some "audio" then
        { s with audio :=
          { noise_level := jsOrNum m.noise_level 0
            threshold := some (jsOrNum m.threshold 85)
            alert := jsOrBool m.alert false } }
      else s
    { s1 with logs := (mkLogEntry now m :: s1.logs).take 50 }

/-- JS `Math.round` on a (rational-modelled) number: half rounds up. -/
def jsRound (q : ℚ) : ℤ :=
  ⌊q + 1 / 2⌋

/-- The `data` prop of the PPE `CameraCard` as a JS object whose numeric
fields may be absent. -/
structure PPECardData where
  total_detected : Option ℚ := none
  ppe_compliant : Option ℚ := none
  ppe_non_compliant : Option ℚ := none
  deriving DecidableEq, Repr

/-- `CameraCard` (PPE branch): `total > 0 ? Math.round((compliant / total) * 100) : 0`. -/
def complianceRate (d : PPECardData) : ℤ :=
  let total := jsOrNum d.total_detected 0
  let compliant := jsOrNum d.ppe_compliant 0
  if total > 0 then jsRound (compliant / total * 100) else 0

/-- The rendering produced by `LogTable.formatData`, one constructor per
source branch; the final branch is the `JSON.stringify` fallback. -/
inductive Formatted where
  | cam0Line (people : ℚ) (accident : Bool)
  | cam10Line (compliant nonCompliant : ℚ)
  | audioLine (level : ℚ) (alert : Bool)
  | fallbackJson (data : Message)
  deriving DecidableEq, Repr

/-- `LogTable.formatData`: dispatch on `log.source`, falling back to the
truncated `JSON.stringify` rendering for unknown sources. -/
def formatData (log : LogEntry) : Formatted :=
  let d := log.data
  if log.source = some "cam0" then
    .cam0Line (jsOrNum d.people_count 0) (jsOrBool d.accident_detected false)
  else if log.source = some "cam10" then
    .cam10Line (jsOrNum d.ppe_compliant 0) (jsOrNum d.ppe_non_compliant 0)
  else if log.source = some "audio" then
    .audioLine (jsOrNum d.noise_level 0) (jsOrBool d.alert false)
  else
    .fallbackJson d

/-- WebSocket `readyState` values. -/
inductive ReadyState where
  | CONNECTING
  | OPEN
  | CLOSING
  | CLOSED
  deriving DecidableEq, Repr

/-- The ping interval of the Dashboard keepalive effect (`setInterval(..., 20000)`). -/
def pingIntervalMs : Nat := 20000

/-- The reconnection delay in `ws.onclose` (`setTimeout(..., 3000)`). -/
def reconnectDelayMs : Nat := 3000

/-- One tick of the Dashboard ping interval: send the string `ping` iff a
socket exists and its `readyState` is `OPEN`. -/
def pingTick (ws : Option ReadyState) : Option String :=
  match ws with
  | some rs => if rs = ReadyState.OPEN then some "ping" else none
  | none => none

/-- The connection-management state of the Dashboard component: `wsRef`
holds the identity of the current WebSocket object, `reconnectTimeout` the
delay of the pending reconnection timer, and `nextId` supplies fresh
WebSocket identities (`new WebSocket(...)` always builds a new object). -/
structure ClientState where
  connected : Bool
  wsRef : Option Nat
  reconnectTimeout : Option Nat
  nextId : Nat
  deriving DecidableEq, Repr

/-- `connectWebSocket`: construct a fresh WebSocket and store it in `wsRef`. -/
def connectWebSocket (s : ClientState) : ClientState :=
  { s with wsRef := some s.nextId, nextId := s.nextId + 1 }

/-- The `ws.onclose` handler: mark disconnected and schedule exactly one
reconnection timer with the fixed `reconnectDelayMs` delay. -/
def onClose (s : ClientState) : ClientState :=
  { s with connected := false, reconnectTimeout := some reconnectDelayMs }

/-- Firing the scheduled reconnection timer: the timeout is consumed and
`connectWebSocket` runs again. -/
def fireReconnect (s : ClientState) : ClientState :=
  connectWebSocket { s with reconnectTimeout := none }

/-- Modelled from the spec: the backend `Event` (§3) as produced by a
SensorWorker, before persistence assigns `id`/`created_at`; the backend
sources are not under the source tree.  The variant payload is carried as
the flat field record. -/
structure Event where
  source : String
  type : String
  payload : Message
  timestamp : Nat
  deriving DecidableEq, Repr

/-- Modelled from the spec: the backend `EventQueue` (§4.2), a bounded FIFO
with a drop counter; the backend sources are not under the source tree. -/
structure EventQueue where
  capacity : Nat
  buffer : List Event
  dropCounter : Nat
  deriving DecidableEq, Repr

/-- Modelled from the spec: `tryEnqueue` (§4.2) never blocks; if the queue
is full the arriving event is discarded (drop-newest) and the process-wide
DropCounter is incremented. -/
def tryEnqueue (q : EventQueue) (e : Event) : Bool × EventQueue :=
  if q.buffer.length < q.capacity then
    (true, { q with buffer := q.buffer ++ [e] })
  else
    (false, { q with dropCounter := q.dropCounter + 1 })

/-- A sequence of `tryEnqueue` attempts with no intervening dequeue,
returning the per-attempt results and the final queue. -/
def enqueueAll (q : EventQueue) : List Event → List Bool × EventQueue
  | [] => ([], q)
  | e :: es =>
    ((tryEnqueue q e).1 :: (enqueueAll (tryEnqueue q e).2 es).1,
     (enqueueAll (tryEnqueue q e).2 es).2)

/-- Modelled from the spec: a persisted event (§3), the logical fields of
the incoming `Event` plus the `id` and `created_at` assigned by the store. -/
structure StoredEvent where
  id : Nat
  source : String
  type : String
  payload : Message
  timestamp : Nat
  created_at : Nat
  deriving DecidableEq, Repr

/-- Modelled from the spec: the backend `EventStore` (§4.4) with a primary
log and a degraded fallback log; `nextId` is the id supply. -/
structure EventStore where
  primary : List StoredEvent
  fallback : List StoredEvent
  nextId : Nat
  deriving DecidableEq, Repr

/-- Modelled from the spec: the status `append` reports (§4.4): normal, or
degraded mode after a primary-storage failure.  No fatal-error outcome
exists. -/
inductive AppendStatus where
  | ok
  | degraded
  deriving DecidableEq, Repr

/-- Modelled from the spec: `EventStore.append` (§4.4).  `primaryAvailable`
is the outcome of the primary write attempt for this execution; on failure
the event goes to the fallback append-only log with the same logical
fields, still receives an id, and degraded status is reported. -/
def EventStore.append (primaryAvailable : Bool) (now : Nat)
    (st : EventStore) (e : Event) : AppendStatus × EventStore :=
  let se : StoredEvent :=
    { id := st.nextId, source := e.source, type := e.type,
      payload := e.payload, timestamp := e.timestamp, created_at := now }
  if primaryAvailable then
    (.ok, { st with primary := st.primary ++ [se], nextId := st.nextId + 1 })
  else
    (.degraded, { st with fallback := st.fallback ++ [se], nextId := st.nextId + 1 })

/-! ## Helper lemmas -/

/-- Unfolding `handleMessage` on a non-control message: the logs are always
updated by prepending the new entry and truncating to 50. -/
lemma handleMessage_logs_eq (now : Nat) (m : Message) (s : DashState)
    (h0 : isControlMessage m = false) :
    (handleMessage now m s).logs = (mkLogEntry now m :: s.logs).take 50 := by
  simp only [handleMessage, h0, Bool.false_eq_true, if_false]
  split
  · rfl
  · split
    · rfl
    · split <;> rfl

/-- Unfolding `handleMessage` on a non-control message for the audio source. -/
lemma handleMessage_audio_eq (now : Nat) (m : Message) (s : DashState)
    (h0 : isControlMessage m = false) (h : m.source = some "audio") :
    handleMessage now m s =
      { s with
        audio :=
          { noise_level := jsOrNum m.noise_level 0
            threshold := some (jsOrNum m.threshold 85)
            alert := jsOrBool m.alert false }
        logs := (mkLogEntry now m :: s.logs).take 50 } := by
  simp [handleMessage, h0, h]

/-- Unfolding `handleMessage` on a non-control message whose source matches
no card: only the logs change. -/
lemma handleMessage_other_eq (now : Nat) (m : Message) (s : DashState)
    (h0 : isControlMessage m = false)
    (h1 : m.source ≠ some "cam0") (h2 : m.source ≠ some "cam10")
    (h3 : m.source ≠ some "audio") :
    handleMessage now m s = { s with logs := (mkLogEntry now m :: s.logs).take 50 } := by
  simp [handleMessage, h0, h1, h2, h3]

/-- Behaviour of a run of `tryEnqueue` attempts against a queue with
`capacity - buffer.length` free slots: the first attempts succeed until the
queue is full, every later attempt fails and bumps the drop counter, and the
buffer ends as the old buffer followed by the accepted prefix. -/
lemma enqueueAll_run (es : List Event) (q : EventQueue)
    (h : q.buffer.length ≤ q.capacity) :
    (enqueueAll q es).1
      = List.replicate (min es.length (q.capacity - q.buffer.length)) true
        ++ List.replicate (es.length - (q.capacity - q.buffer.length)) false
    ∧ (enqueueAll q es).2.buffer
      = q.buffer ++ es.take (q.capacity - q.buffer.length)
    ∧ (enqueueAll q es).2.dropCounter
      = q.dropCounter + (es.length - (q.capacity - q.buffer.length)) := by
  induction es generalizing q with
  | nil => simp [enqueueAll]
  | cons e es ih =>
    by_cases hlt : q.buffer.length < q.capacity
    · have step : tryEnqueue q e = (true, { q with buffer := q.buffer ++ [e] }) := by
        simp [tryEnqueue, hlt]
      have h' : ({ q with buffer := q.buffer ++ [e] } : EventQueue).buffer.length
          ≤ ({ q with buffer := q.buffer ++ [e] } : EventQueue).capacity := by
        simp; omega
      obtain ⟨ih1, ih2, ih3⟩ := ih _ h'
      have hk : q.capacity - q.buffer.length
          = (q.capacity - (q.buffer.length + 1)) + 1 := by omega
      refine ⟨?_, ?_, ?_⟩
      · simp only [enqueueAll, step, ih1]
        simp only [List.length_append, List.length_cons, hk]
        rw [Nat.succ_min_succ, Nat.succ_sub_succ, List.replicate_succ]
        simp
      · simp only [enqueueAll, step, ih2]
        simp only [List.length_append, hk, List.take_succ_cons]
        simp
      · simp only [enqueueAll, step, ih3]
        simp only [List.length_append, List.length_cons, hk, Nat.succ_sub_succ]
        simp
    · have hfull : q.buffer.length = q.capacity := by omega
      have step : tryEnqueue q e = (false, { q with dropCounter := q.dropCounter + 1 }) := by
        simp [tryEnqueue, hlt]
      have h' : ({ q with dropCounter := q.dropCounter + 1 } : EventQueue).buffer.length
          ≤ ({ q with dropCounter := q.dropCounter + 1 } : EventQueue).capacity := h
      obtain ⟨ih1, ih2, ih3⟩ := ih _ h'
      have hk : q.capacity - q.buffer.length = 0 := by omega
      refine ⟨?_, ?_, ?_⟩
      · simp only [enqueueAll, step, ih1]
        simp [hk, List.replicate_succ]
      · simp only [enqueueAll, step, ih2]
        simp [hk]
      · simp only [enqueueAll, step, ih3]
        simp [hk]
        omega

/-! ## Claim theorems -/

/-- C1: with queue capacity `C = es.length` and `C + 1` enqueue attempts
(`es ++ [e]`) before any dequeue, the first `C` attempts succeed and exactly
the last fails (drop-newest: the arriving event `e` is discarded, no earlier
event evicted), the DropCounter rises by exactly 1, and the retained events
are exactly `es` in arrival order. -/
theorem queue_overflow_drop_newest (es : List Event) (e : Event) (d : Nat) :
    (enqueueAll ⟨es.length, [], d⟩ (es ++ [e])).1
      = List.replicate es.length true ++ [false]
    ∧ (enqueueAll ⟨es.length, [], d⟩ (es ++ [e])).2.buffer = es
    ∧ (enqueueAll ⟨es.length, [], d⟩ (es ++ [e])).2.dropCounter = d + 1 := by
  obtain ⟨h1, h2, h3⟩ :=
    enqueueAll_run (es ++ [e]) ⟨es.length, [], d⟩ (by simp)
  refine ⟨?_, ?_, ?_⟩
  · rw [h1]
    have hmin : min (es ++ [e]).length (es.length - ([] : List Event).length)
        = es.length := by simp
    have hsub : (es ++ [e]).length - (es.length - ([] : List Event).length) = 1 := by
      simp
    rw [hmin, hsub]
    rfl
  · rw [h2]
    simp
  · rw [h3]
    simp

/-- C2: when the primary store fails during `append`, the event is written
to the fallback append-only log with identical logical field values, still
receives an id (the store's next id), the primary log is untouched, and the
reported status is degraded rather than a fatal error; for every execution
(primary up or down) the persisted event lands in one of the two logs, so
nothing is silently dropped. -/
theorem append_primary_failure_fallback (st : EventStore) (e : Event) (now : Nat) :
    (EventStore.append false now st e).1 = AppendStatus.degraded
    ∧ (EventStore.append false now st e).2.fallback
      = st.fallback
        ++ [{ id := st.nextId, source := e.source, type := e.type,
              payload := e.payload, timestamp := e.timestamp, created_at := now }]
    ∧ (EventStore.append false now st e).2.primary = st.primary
    ∧ ∀ avail : Bool,
        ({ id := st.nextId, source := e.source, type := e.type,
           payload := e.payload, timestamp := e.timestamp,
           created_at := now } : StoredEvent)
          ∈ (EventStore.append avail now st e).2.primary
            ++ (EventStore.append avail now st e).2.fallback := by
  refine ⟨rfl, rfl, rfl, ?_⟩
  intro avail
  cases avail <;> simp [EventStore.append]

/-- C3: every WebSocket close marks the client disconnected and schedules
exactly one reconnection timer with the same fixed 3-second delay, and the
reconnect that fires opens a fresh connection (a WebSocket identity distinct
from every previously allocated one). -/
theorem onclose_schedules_fixed_reconnect (s : ClientState)
    (h : ∀ i, s.wsRef = some i → i < s.nextId) :
    (onClose s).connected = false
    ∧ (onClose s).reconnectTimeout = some reconnectDelayMs
    ∧ reconnectDelayMs = 3000
    ∧ (fireReconnect (onClose s)).wsRef = some s.nextId
    ∧ (fireReconnect (onClose s)).reconnectTimeout = none
    ∧ (fireReconnect (onClose s)).wsRef ≠ s.wsRef := by
  refine ⟨rfl, rfl, rfl, rfl, rfl, ?_⟩
  intro hc
  have := h s.nextId hc.symm
  omega

/-- C3 witness: the theorem at a concrete client state. -/
theorem onclose_schedules_fixed_reconnect_witness :
    (fireReconnect (onClose
        { connected := true, wsRef := some 0, reconnectTimeout := none, nextId := 1 })).wsRef
      ≠ ({ connected := true, wsRef := some 0, reconnectTimeout := none,
           nextId := 1 } : ClientState).wsRef :=
  (onclose_schedules_fixed_reconnect _
    (by intro i hi; cases hi; decide)).2.2.2.2.2

/-- C4: the Dashboard liveness ping runs on a fixed 20000 ms interval and a
tick sends exactly the string `ping`, precisely when a socket exists with
readyState `OPEN`; over a missing, connecting, closing or closed socket no
ping is attempted. -/
theorem ping_only_when_socket_open :
    pingIntervalMs = 20000
    ∧ (∀ ws : Option ReadyState,
        pingTick ws = some "ping" ↔ ws = some ReadyState.OPEN)
    ∧ (∀ ws : Option ReadyState,
        ws ≠ some ReadyState.OPEN → pingTick ws = none) := by
  refine ⟨rfl, ?_, ?_⟩
  · intro ws
    match ws with
    | none => simp [pingTick]
    | some rs => cases rs <;> simp [pingTick]
  · intro ws hne
    match ws with
    | none => rfl
    | some rs => cases rs <;> simp_all [pingTick]

/-- C4 witness: the theorem applied at concrete socket states. -/
theorem ping_only_when_socket_open_witness :
    pingTick (some ReadyState.CLOSED) = none ∧ pingTick none = none :=
  ⟨ping_only_when_socket_open.2.2 (some ReadyState.CLOSED) (by decide),
   ping_only_when_socket_open.2.2 none (by decide)⟩

/-- C5: a message whose type is `connection`, `pong` or `keepalive` leaves
`handleMessage` without modifying any card state or the logs: the state is
returned unchanged. -/
theorem control_messages_ignored (now : Nat) (m : Message) (s : DashState)
    (h : m.type = some "connection" ∨ m.type = some "pong"
        ∨ m.type = some "keepalive") :
    handleMessage now m s = s := by
  have hc : isControlMessage m = true := by
    rcases h with h | h | h <;> simp [isControlMessage, h]
  simp [handleMessage, hc]

/-- C5 witness: the theorem at a concrete control message. -/
theorem control_messages_ignored_witness :
    handleMessage 0 { type := some "pong" } initState = initState :=
  control_messages_ignored 0 { type := some "pong" } initState
    (Or.inr (Or.inl rfl))

/-- The concrete camera event of the end-to-end scenario. -/
def cam0ExampleMsg : Message :=
  { source := some "cam0", type := some "camera_detection",
    people_count := some 5, accident_detected := some false, fps := some 10 }

/-- C6: handling the concrete camera message sets the cam0 card to exactly
`people_count = 5`, `accident_detected = false`, `fps = 10` (with no
accident type), and prepends one log entry carrying source `cam0` and type
`camera_detection` to the logs (truncated to the most recent 50). -/
theorem cam0_event_updates_card (now : Nat) (s : DashState) :
    (handleMessage now cam0ExampleMsg s).cam0
      = { people_count := 5, accident_detected := false,
          accident_type := none, fps := 10 }
    ∧ (handleMessage now cam0ExampleMsg s).logs
      = ({ id := now, timestamp := none, source := some "cam0",
           type := some "camera_detection",
           data := cam0ExampleMsg } :: s.logs).take 50 := by
  constructor
  · simp [handleMessage, cam0ExampleMsg, isControlMessage, jsOrNum, jsOrBool]
  · rw [handleMessage_logs_eq _ _ _ (by rfl)]
    rfl

/-- C7 counterexample: the claim reads every present audio field verbatim
into the card state, but for the message with a present `threshold` of `0`
the client stores `85` (JS `||` treats `0` as falsy), not the field value. -/
theorem audio_threshold_zero_cex :
    (handleMessage 0
        { source := some "audio", type := some "noise_level",
          threshold := some 0 } initState).audio.threshold = some 85
    ∧ (some (85 : ℚ) : Option ℚ) ≠ some 0 := by
  constructor
  · rfl
  · decide

/-- C7 (amended): for every non-control message with source `audio`, the
audio card fields are taken from the message with the defaults 0, 85 and
false applied when the corresponding field is absent or falsy (numeric `0`
or `false`); a present non-zero number or a present `true` is read
verbatim. -/
theorem audio_event_updates_card (now : Nat) (m : Message) (s : DashState)
    (h0 : isControlMessage m = false) (h : m.source = some "audio") :
    ((m.noise_level = none ∨ m.noise_level = some 0) →
      (handleMessage now m s).audio.noise_level = 0)
    ∧ (∀ v : ℚ, m.noise_level = some v → v ≠ 0 →
      (handleMessage now m s).audio.noise_level = v)
    ∧ ((m.threshold = none ∨ m.threshold = some 0) →
      (handleMessage now m s).audio.threshold = some 85)
    ∧ (∀ v : ℚ, m.threshold = some v → v ≠ 0 →
      (handleMessage now m s).audio.threshold = some v)
    ∧ ((m.alert = none ∨ m.alert = some false) →
      (handleMessage now m s).audio.alert = false)
    ∧ (m.alert = some true → (handleMessage now m s).audio.alert = true) := by
  rw [handleMessage_audio_eq now m s h0 h]
  refine ⟨?_, ?_, ?_, ?_, ?_, ?_⟩
  · rintro (hv | hv) <;> simp [jsOrNum, hv]
  · intro v hv hne
    simp [jsOrNum, hv, hne]
  · rintro (hv | hv) <;> simp [jsOrNum, hv]
  · intro v hv hne
    simp [jsOrNum, hv, hne]
  · rintro (hv | hv) <;> simp [jsOrBool, hv]
  · intro hv
    simp [jsOrBool, hv]

/-- The concrete audio event of the end-to-end scenario. -/
def audioExampleMsg : Message :=
  { source := some "audio", type := some "noise_level",
    noise_level := some (87.5 : ℚ), threshold := some 85, alert := some true }

/-- C7 witness: the theorem at the concrete audio message; in particular the
resulting audio state has `alert = true`. -/
theorem audio_event_updates_card_witness :
    (handleMessage 0 audioExampleMsg initState).audio.alert = true :=
  (audio_event_updates_card 0 audioExampleMsg initState rfl rfl).2.2.2.2.2 rfl

/-- C8: every call to `handleMessage` keeps the logs list bounded by 50 and
most-recent-first: a non-control message is prepended at the front with all
but the 50 most recent entries discarded, a control message leaves the logs
unchanged, and the length bound 50 is preserved by every call. -/
theorem logs_bounded_by_fifty (now : Nat) (m : Message) (s : DashState) :
    (isControlMessage m = false →
      (handleMessage now m s).logs = (mkLogEntry now m :: s.logs).take 50)
    ∧ (isControlMessage m = true → (handleMessage now m s).logs = s.logs)
    ∧ (isControlMessage m = false → (handleMessage now m s).logs.length ≤ 50)
    ∧ (s.logs.length ≤ 50 → (handleMessage now m s).logs.length ≤ 50) := by
  by_cases hc : isControlMessage m
  · have hs : handleMessage now m s = s := by simp [handleMessage, hc]
    refine ⟨?_, fun _ => by rw [hs], ?_, fun hlen => by rwa [hs]⟩
    · intro hf
      rw [hc] at hf
      exact absurd hf (by simp)
    · intro hf
      rw [hc] at hf
      exact absurd hf (by simp)
  · have hf : isControlMessage m = false := by simpa using hc
    have hlogs := handleMessage_logs_eq now m s hf
    refine ⟨fun _ => hlogs, ?_, ?_, ?_⟩
    · intro ht
      rw [hf] at ht
      exact absurd ht (by simp)
    · intro _
      rw [hlogs]
      exact List.length_take_le 50 (mkLogEntry now m :: s.logs)
    · intro _
      rw [hlogs]
      exact List.length_take_le 50 (mkLogEntry now m :: s.logs)

/-- C8 witness: the theorem at a concrete call. -/
theorem logs_bounded_by_fifty_witness :
    (handleMessage 0 { source := some "cam0" } initState).logs
      = (mkLogEntry 0 { source := some "cam0" } :: initState.logs).take 50 :=
  (logs_bounded_by_fifty 0 { source := some "cam0" } initState).1 rfl

/-- C9: the PPE compliance rate divides only under the guard that the
(defaulted) total is strictly positive: when `total_detected` is absent or
zero the rate is 0, and when it holds a positive value `t` the rate is the
JS rounding of `compliant / t * 100`. -/
theorem compliance_rate_guarded (d : PPECardData) :
    ((d.total_detected = none ∨ d.total_detected = some 0) →
      complianceRate d = 0)
    ∧ (jsOrNum d.total_detected 0 ≤ 0 → complianceRate d = 0)
    ∧ (∀ t : ℚ, d.total_detected = some t → 0 < t →
      complianceRate d = jsRound (jsOrNum d.ppe_compliant 0 / t * 100)) := by
  refine ⟨?_, ?_, ?_⟩
  · rintro (hv | hv) <;> simp [complianceRate, jsOrNum, hv]
  · intro hle
    unfold complianceRate
    rw [if_neg (not_lt.mpr hle)]
  · intro t ht hpos
    have hne : ¬ t = 0 := by exact ne_of_gt hpos
    unfold complianceRate
    rw [ht]
    simp only [jsOrNum, hne, if_false]
    rw [if_pos hpos]

/-- C9 witness: the theorem at concrete card data. -/
theorem compliance_rate_guarded_witness :
    complianceRate { total_detected := some 0, ppe_compliant := some 3,
                     ppe_non_compliant := none } = 0 :=
  (compliance_rate_guarded _).1 (Or.inr rfl)

/-- A concrete event message from an unrecognised source. -/
def unknownSourceMsg : Message :=
  { source := some "door1", type := some "temperature" }

/-- C10: a non-control message whose source is none of `cam0`, `cam10`,
`audio` leaves all three card states unchanged, is still prepended to the
logs, and its log entry is rendered by the `JSON.stringify` fallback branch
of `formatData`. -/
theorem unknown_source_still_logged (now : Nat) (m : Message) (s : DashState)
    (h0 : isControlMessage m = false)
    (h1 : m.source ≠ some "cam0") (h2 : m.source ≠ some "cam10")
    (h3 : m.source ≠ some "audio") :
    (handleMessage now m s).cam0 = s.cam0
    ∧ (handleMessage now m s).cam10 = s.cam10
    ∧ (handleMessage now m s).audio = s.audio
    ∧ (handleMessage now m s).logs = (mkLogEntry now m :: s.logs).take 50
    ∧ formatData (mkLogEntry now m) = Formatted.fallbackJson m := by
  rw [handleMessage_other_eq now m s h0 h1 h2 h3]
  refine ⟨rfl, rfl, rfl, rfl, ?_⟩
  simp [formatData, mkLogEntry, h1, h2, h3]

/-- C10 witness: the theorem at a concrete unknown-source message. -/
theorem unknown_source_still_logged_witness :
    (handleMessage 0 unknownSourceMsg initState).cam0 = initState.cam0
    ∧ formatData (mkLogEntry 0 unknownSourceMsg)
      = Formatted.fallbackJson unknownSourceMsg :=
  ⟨(unknown_source_still_logged 0 unknownSourceMsg initState rfl
      (by decide) (by decide) (by decide)).1,
   (unknown_source_still_logged 0 unknownSourceMsg initState rfl
      (by decide) (by decide) (by decide)).2.2.2.2⟩

end CCTV
